import Mathlib

/-
Verification of the Control-Horario session lifecycle core.

The definitions below are a shallow embedding of the session hook
(src/hooks/useSession.ts, documented variant) and of the history-side
duration helper (src/utils/duration.ts).  Instants are modelled as epoch
milliseconds (Int); remote persistence is modelled as an explicit record
of rows, every supabase call is recorded in an explicit call trace, and
the success of each remote write is an explicit Bool parameter.
-/

namespace ControlHorario

/-- Status column of a work_sessions row
(status TEXT CHECK (status IN (active, paused, completed, abandoned))). -/
inductive SessionStatus where
  | active
  | paused
  | completed
  | abandoned
deriving DecidableEq, Repr

/-- A work_pauses row: owning session id, pause_start, and pause_end
(none while the pause is still open). -/
structure WorkPause where
  session_id : Nat
  pause_start : Int
  pause_end : Option Int
deriving DecidableEq, Repr

/-- A work_sessions row (the columns the lifecycle core reads or writes). -/
structure SessionRow where
  id : Nat
  user_id : Nat
  start_time : Int
  status : SessionStatus
  end_time : Option Int
  total_duration : Option String
deriving DecidableEq, Repr

/-- The joined shape the hook keeps locally: a session row together with
its work_pauses (select with work_pauses(*)). -/
structure WorkSession where
  row : SessionRow
  work_pauses : List WorkPause
deriving DecidableEq, Repr

/-- The local React state of useSession: activeSession, elapsedTime,
isPaused, loading and the pending abandonedSession (id, timeMessage). -/
structure LocalState where
  activeSession : Option WorkSession
  elapsedTime : Int
  isPaused : Bool
  loading : Bool
  abandonedSession : Option (Nat × String)
deriving DecidableEq, Repr

/-- One step of the session.work_pauses.forEach loop inside
calculateElapsedTime.  The accumulator carries the three mutable locals
(totalPauseMs, isCurrentlyPaused, currentPauseStart). -/
def pauseScanStep (acc : Int × Bool × Int) (p : WorkPause) : Int × Bool × Int :=
  match p.pause_end with
  | some e => (acc.1 + (e - p.pause_start), acc.2.1, acc.2.2)
  | none => (acc.1, true, p.pause_start)

/-- calculateElapsedTime from useSession.ts: scan the pause list, charge an
open pause up to now, and return max(0, floor(netMs / 1000)). -/
def calculateElapsedTime (start_time : Int) (pauses : List WorkPause) (now : Int) : Int :=
  let scan := pauses.foldl pauseScanStep (0, false, 0)
  let totalPauseMs := if scan.2.1 then scan.1 + (now - scan.2.2) else scan.1
  max 0 ((now - start_time - totalPauseMs).fdiv 1000)

/-- Sum of (pause_end - pause_start) over the pauses with both endpoints
set (an open pause contributes zero here). -/
def closedPauseSum (pauses : List WorkPause) : Int :=
  (pauses.map (fun p =>
    match p.pause_end with
    | some e => e - p.pause_start
    | none => 0)).sum

/-- The pauses of the list whose pause_end is unset. -/
def openPauses (pauses : List WorkPause) : List WorkPause :=
  pauses.filter (fun p => p.pause_end.isNone)

/-- Spec-side formula for the net elapsed time, written from the spec
wording: now - start_time, minus the closed-pause total, minus
(now - pause_start) for the open pause if one exists, floored to whole
seconds and clamped to zero. -/
def netElapsedSpec (start_time : Int) (pauses : List WorkPause) (now : Int) : Int :=
  let openCharge : Int :=
    match openPauses pauses with
    | [] => 0
    | p :: _ => now - p.pause_start
  max 0 ((now - start_time - (closedPauseSum pauses + openCharge)).fdiv 1000)

/-- Concrete pause list for the C1 witness: one closed pause and one open
pause. -/
def pausesW : List WorkPause := [⟨1, 1000, some 3000⟩, ⟨1, 5000, none⟩]

/-- Left pad to two digits, as toString().padStart(2, "0") does for a
nonnegative number. -/
def padTwo (n : Nat) : String :=
  if n < 10 then "0" ++ toString n else toString n

/-- formatTime from useSession.ts: HH:MM:SS with zero-padded, unbounded
hours. -/
def formatTime (seconds : Nat) : String :=
  padTwo (seconds / 3600) ++ ":" ++ padTwo (seconds % 3600 / 60) ++ ":" ++ padTwo (seconds % 60)

/-- The remote store: the work_sessions rows (most recent first, matching
the order by created_at descending used by every query) and the
work_pauses rows. -/
structure DB where
  sessions : List SessionRow
  pauses : List WorkPause
deriving DecidableEq, Repr

/-- Whether a status is one of the open statuses queried by
in(status, [active, paused]). -/
def isOpenStatus : SessionStatus → Bool
  | .active => true
  | .paused => true
  | _ => false

/-- The query select work_sessions where user_id = uid and status in
(active, paused) order by created_at desc maybeSingle(). -/
def findOpenSession (db : DB) (uid : Nat) : Option SessionRow :=
  db.sessions.find? (fun r => r.user_id == uid && isOpenStatus r.status)

/-- The query select work_pauses where session_id = sid. -/
def sessionPauses (db : DB) (sid : Nat) : List WorkPause :=
  db.pauses.filter (fun p => p.session_id == sid)

/-- Number of pauses of the session whose pause_end is still unset. -/
def countOpenPauses (db : DB) (sid : Nat) : Nat :=
  (db.pauses.filter (fun p => p.session_id == sid && p.pause_end.isNone)).length

/-- insert into work_pauses (session_id, pause_start). -/
def insertPauseRow (db : DB) (sid : Nat) (t : Int) : DB :=
  { db with pauses := db.pauses ++ [⟨sid, t, none⟩] }

/-- update work_sessions set status where id = sid. -/
def setSessionStatus (db : DB) (sid : Nat) (status : SessionStatus) : DB :=
  { db with sessions := db.sessions.map (fun r =>
      if r.id == sid then { r with status := status } else r) }

/-- update work_pauses set pause_end = t where session_id = sid and
pause_end is null. -/
def closeOpenPausesRow (db : DB) (sid : Nat) (t : Int) : DB :=
  { db with pauses := db.pauses.map (fun p =>
      if p.session_id == sid && p.pause_end.isNone then { p with pause_end := some t } else p) }

/-- update work_sessions set end_time, status = completed, total_duration
where id = sid (the single closing update of endSession). -/
def completeSession (db : DB) (sid : Nat) (endTime : Int) (dur : String) : DB :=
  { db with sessions := db.sessions.map (fun r =>
      if r.id == sid then
        { r with status := SessionStatus.completed, end_time := some endTime,
                 total_duration := some dur }
      else r) }

/-- One recorded supabase call.  The traces below list every remote call an
operation issues, in order, whether or not it succeeds. -/
inductive RemoteCall where
  | getUser
  | insertSession (userId : Nat) (startTime : Int)
  | insertPause (sessionId : Nat) (pauseStart : Int)
  | updateStatus (sessionId : Nat) (status : SessionStatus)
  | closeOpenPause (sessionId : Nat) (pauseEnd : Int)
  | fetchPauses (sessionId : Nat)
  | updateComplete (sessionId : Nat) (endTime : Int) (totalDuration : String)
  | loadSession
deriving DecidableEq, Repr

instance : DecidableEq (Except String Unit) := fun a b =>
  match a, b with
  | .ok (), .ok () => isTrue rfl
  | .error x, .error y =>
    if h : x = y then isTrue (by rw [h]) else isFalse (fun hc => by cases hc; exact h rfl)
  | .ok _, .error _ => isFalse (fun hc => by cases hc)
  | .error _, .ok _ => isFalse (fun hc => by cases hc)

/-- The outcome of one asynchronous operation: the new local state, the new
remote store, the calls issued, and the promise result (ok, or the thrown
error message). -/
structure OpResult where
  state : LocalState
  db : DB
  calls : List RemoteCall
  outcome : Except String Unit
deriving DecidableEq, Repr

/-- loadActiveSession from useSession.ts: fetch the open session of the
user with its pauses; on a hit set activeSession, isPaused and
elapsedTime; on a miss clear them; the finally block always clears
loading.  qOk models the query succeeding (or failing only with the
no-rows code PGRST116). -/
def loadActiveSession (st : LocalState) (db : DB) (user : Option Nat) (now : Int)
    (qOk : Bool) : LocalState :=
  match user with
  | none => { st with loading := false }
  | some uid =>
    if qOk = false then { st with loading := false }
    else
      match findOpenSession db uid with
      | some r =>
        { st with
          activeSession := some ⟨r, sessionPauses db r.id⟩,
          isPaused := r.status == SessionStatus.paused,
          elapsedTime := calculateElapsedTime r.start_time (sessionPauses db r.id) now,
          loading := false }
      | none =>
        { st with activeSession := none, elapsedTime := 0, isPaused := false, loading := false }

/-- startSession from useSession.ts: reject when a session is already
tracked locally, before getUser and before any insert; otherwise insert
the new active session and set the local state.  insertOk models the
insert being accepted by the store, newId the generated row id. -/
def startSession (st : LocalState) (db : DB) (user : Option Nat) (now : Int)
    (insertOk : Bool) (newId : Nat) : OpResult :=
  if st.activeSession.isSome then
    ⟨st, db, [], Except.error "Ya hay una sesión activa"⟩
  else
    match user with
    | none => ⟨st, db, [RemoteCall.getUser], Except.error "No authenticated user"⟩
    | some uid =>
      if insertOk = false then
        ⟨st, db, [RemoteCall.getUser, RemoteCall.insertSession uid now],
         Except.error "insert rejected"⟩
      else
        let row : SessionRow := ⟨newId, uid, now, SessionStatus.active, none, none⟩
        ⟨{ st with activeSession := some ⟨row, []⟩, isPaused := false, elapsedTime := 0 },
         { db with sessions := row :: db.sessions },
         [RemoteCall.getUser, RemoteCall.insertSession uid now], Except.ok ()⟩

/-- pauseSession from useSession.ts: guard clauses, elapsed-time snapshot,
optimistic isPaused flip, insert of the pause row, status update, reload;
on a failed write the catch block logs, rolls the flag back and the
promise still resolves; the finally block clears loading. -/
def pauseSession (st : LocalState) (db : DB) (user : Option Nat) (now : Int)
    (insertOk updateOk loadOk : Bool) : OpResult :=
  match st.activeSession with
  | none => ⟨st, db, [], Except.ok ()⟩
  | some s =>
    if st.isPaused || st.loading then ⟨st, db, [], Except.ok ()⟩
    else
      let st0 := { st with
        elapsedTime := calculateElapsedTime s.row.start_time s.work_pauses now }
      let st1 := { st0 with isPaused := true, loading := true }
      if insertOk = false then
        ⟨{ st1 with isPaused := false, loading := false }, db,
         [RemoteCall.insertPause s.row.id now], Except.ok ()⟩
      else
        let db1 := insertPauseRow db s.row.id now
        if updateOk = false then
          ⟨{ st1 with isPaused := false, loading := false }, db1,
           [RemoteCall.insertPause s.row.id now,
            RemoteCall.updateStatus s.row.id SessionStatus.paused], Except.ok ()⟩
        else
          let db2 := setSessionStatus db1 s.row.id SessionStatus.paused
          let st2 := loadActiveSession st1 db2 user now loadOk
          ⟨{ st2 with loading := false }, db2,
           [RemoteCall.insertPause s.row.id now,
            RemoteCall.updateStatus s.row.id SessionStatus.paused,
            RemoteCall.loadSession], Except.ok ()⟩

/-- resumeSession from useSession.ts: guard clauses, optimistic isPaused
clear, closing of the open pause row, status update, reload; on a failed
write the catch block logs, sets the flag back to paused and the promise
still resolves; the finally block clears loading. -/
def resumeSession (st : LocalState) (db : DB) (user : Option Nat) (now : Int)
    (closeOk updateOk loadOk : Bool) : OpResult :=
  match st.activeSession with
  | none => ⟨st, db, [], Except.ok ()⟩
  | some s =>
    if !st.isPaused || st.loading then ⟨st, db, [], Except.ok ()⟩
    else
      let st1 := { st with isPaused := false, loading := true }
      if closeOk = false then
        ⟨{ st1 with isPaused := true, loading := false }, db,
         [RemoteCall.closeOpenPause s.row.id now], Except.ok ()⟩
      else
        let db1 := closeOpenPausesRow db s.row.id now
        if updateOk = false then
          ⟨{ st1 with isPaused := true, loading := false }, db1,
           [RemoteCall.closeOpenPause s.row.id now,
            RemoteCall.updateStatus s.row.id SessionStatus.active], Except.ok ()⟩
        else
          let db2 := setSessionStatus db1 s.row.id SessionStatus.active
          let st2 := loadActiveSession st1 db2 user now loadOk
          ⟨{ st2 with loading := false }, db2,
           [RemoteCall.closeOpenPause s.row.id now,
            RemoteCall.updateStatus s.row.id SessionStatus.active,
            RemoteCall.loadSession], Except.ok ()⟩

/-- The totalPauseTimeMs loop of endSession: for every fetched pause add
(pause_end, or now when the pause is open) minus pause_start. -/
def endPauseTotal (pauses : List WorkPause) (now : Int) : Int :=
  pauses.foldl (fun acc p => acc + (p.pause_end.getD now - p.pause_start)) 0

/-- Spec-side sum for the same total, written as a plain sum over the
fetched pause list. -/
def endPauseTotalSpec (pauses : List WorkPause) (now : Int) : Int :=
  (pauses.map (fun p => p.pause_end.getD now - p.pause_start)).sum

/-- endSession from useSession.ts: fetch the pause list (fetchOk false
models a failed query, whose error is discarded and whose data is null),
total the pauses treating an open pause as closing now, clamp and format
the net seconds, and issue the single completing update.  Only a failure
of that update is thrown. -/
def endSession (st : LocalState) (db : DB) (now : Int) (fetchOk updateOk : Bool) : OpResult :=
  match st.activeSession with
  | none => ⟨st, db, [], Except.error "No active session"⟩
  | some s =>
    let fetched : Option (List WorkPause) :=
      if fetchOk then some (sessionPauses db s.row.id) else none
    let totalPauseTimeMs : Int :=
      match fetched with
      | some ps => endPauseTotal ps now
      | none => 0
    let netWorkSeconds : Int := max 0 ((now - s.row.start_time - totalPauseTimeMs).fdiv 1000)
    let formattedDuration := formatTime netWorkSeconds.toNat
    if updateOk = false then
      ⟨st, db,
       [RemoteCall.fetchPauses s.row.id, RemoteCall.updateComplete s.row.id now formattedDuration],
       Except.error "update rejected"⟩
    else
      ⟨{ st with activeSession := none, elapsedTime := 0, isPaused := false },
       completeSession db s.row.id now formattedDuration,
       [RemoteCall.fetchPauses s.row.id, RemoteCall.updateComplete s.row.id now formattedDuration],
       Except.ok ()⟩

/-- The hours-or-minutes message built by checkAbandonedSessions: whole
floored hours when at least one hour has elapsed, whole floored minutes
otherwise. -/
def timeMessage (ms : Int) : String :=
  if 3600000 ≤ ms then toString (ms.fdiv 3600000) ++ " horas"
  else toString (ms.fdiv 60000) ++ " minutos"

/-- checkAbandonedSessions from useSession.ts (client-side variant): query
the open session of the user directly; whenever one exists, publish it as
the pending abandonedSession with the hours-or-minutes message; only when
none exists fall through to the normal load. -/
def checkAbandonedSessions (st : LocalState) (db : DB) (user : Option Nat) (now : Int)
    (qOk loadOk : Bool) : LocalState :=
  match user with
  | none => st
  | some uid =>
    if qOk = false then st
    else
      match findOpenSession db uid with
      | some r =>
        { st with abandonedSession := some (r.id, timeMessage (now - r.start_time)) }
      | none => loadActiveSession st db user now loadOk

/-- A timestamp string field as the history helpers see it: null (or the
empty string, which is equally falsy), a string that does not parse to a
valid date, or a string that parses to an epoch-millisecond instant. -/
inductive TsStr where
  | null
  | invalid
  | valid (t : Int)
deriving DecidableEq, Repr

/-- JavaScript truthiness of the field. -/
def TsStr.truthy : TsStr → Bool
  | .null => false
  | _ => true

/-- new Date(s).getTime(), with none standing for NaN. -/
def TsStr.parse : TsStr → Option Int
  | .valid t => some t
  | _ => none

/-- A row of the Pausa interface in duration.ts: pause_start is a string,
pause_end a string or null. -/
structure Pausa where
  pause_start : TsStr
  pause_end : TsStr
deriving DecidableEq, Repr

/-- The body of the pauses.forEach loop in calculateDuration: a pause
contributes only when both fields are truthy and both parse. -/
def pausaContribution (p : Pausa) : Int :=
  if p.pause_start.truthy && p.pause_end.truthy then
    match p.pause_start.parse, p.pause_end.parse with
    | some a, some b => b - a
    | _, _ => 0
  else 0

/-- calculateDuration from duration.ts: net worked milliseconds between
two timestamps, subtracting only fully valid closed pauses, zero when
either endpoint is invalid, clamped to zero. -/
def calculateDuration (startTime endTime : TsStr) (pauses : List Pausa) : Int :=
  match startTime.parse, endTime.parse with
  | some s, some e =>
    let total := pauses.foldl (fun acc p => acc + pausaContribution p) 0
    max 0 ((e - s) - total)
  | _, _ => 0

/-- Spec-side sum for calculateDuration: the durations of the pauses whose
two endpoints are both set and both parse. -/
def validClosedPauseSumSpec (pauses : List Pausa) : Int :=
  (pauses.filterMap (fun p =>
    match p.pause_start.parse, p.pause_end.parse with
    | some a, some b => some (b - a)
    | _, _ => none)).sum

/-- The initial local state of the hook: nothing tracked, loading true. -/
def initialState : LocalState := ⟨none, 0, false, true, none⟩

/-- Concrete open session row used by several witnesses: id 1, owner 7,
started at instant 0, active. -/
def rowC : SessionRow := ⟨1, 7, 0, SessionStatus.active, none, none⟩

/-- Store holding only that open row. -/
def dbC : DB := ⟨[rowC], []⟩

/-- The same session as the hook tracks it locally. -/
def sessW : WorkSession := ⟨rowC, []⟩

/-- Local state tracking that session, active and idle. -/
def stActive : LocalState := ⟨some sessW, 0, false, false, none⟩

/-- Local state tracking that session while paused. -/
def stPaused : LocalState := ⟨some sessW, 0, true, false, none⟩

/-- Store for the end-of-day scenario: the session of rowC plus the two
closed pauses 12:00-12:30 and 15:00-15:15 of a 09:00-17:00 day (as
millisecond offsets from the 09:00 start). -/
def dbScen : DB :=
  ⟨[rowC], [⟨1, 10800000, some 12600000⟩, ⟨1, 21600000, some 22500000⟩]⟩

end ControlHorario

namespace ControlHorario

theorem closedPauseSum_cons (p : WorkPause) (ps : List WorkPause) :
    closedPauseSum (p :: ps) =
      (match p.pause_end with
       | some e => e - p.pause_start
       | none => 0) + closedPauseSum ps := by
  simp [closedPauseSum]

theorem openPauses_cons_closed {p : WorkPause} {e : Int} (hp : p.pause_end = some e)
    (ps : List WorkPause) : openPauses (p :: ps) = openPauses ps := by
  simp [openPauses, List.filter_cons, hp]

theorem openPauses_cons_open {p : WorkPause} (hp : p.pause_end = none)
    (ps : List WorkPause) : openPauses (p :: ps) = p :: openPauses ps := by
  simp [openPauses, List.filter_cons, hp]

theorem pauseScan_no_open :
    ∀ (ps : List WorkPause) (t : Int) (b : Bool) (c : Int), openPauses ps = [] →
      ps.foldl pauseScanStep (t, b, c) = (t + closedPauseSum ps, b, c)
  | [], t, b, c, _ => by simp [closedPauseSum]
  | p :: ps, t, b, c, h => by
    cases hp : p.pause_end with
    | none =>
      rw [openPauses_cons_open hp ps] at h
      exact absurd h (by simp)
    | some e =>
      rw [openPauses_cons_closed hp ps] at h
      have ih := pauseScan_no_open ps (t + (e - p.pause_start)) b c h
      rw [List.foldl_cons]
      show List.foldl pauseScanStep (pauseScanStep (t, b, c) p) ps = _
      rw [show pauseScanStep (t, b, c) p = (t + (e - p.pause_start), b, c) by
        simp [pauseScanStep, hp]]
      rw [ih, closedPauseSum_cons, hp]
      rw [show t + (e - p.pause_start) + closedPauseSum ps
          = t + ((e - p.pause_start) + closedPauseSum ps) by ring]

theorem pauseScan_one_open :
    ∀ (ps : List WorkPause) (q : WorkPause) (t : Int) (b : Bool) (c : Int),
      openPauses ps = [q] →
      ps.foldl pauseScanStep (t, b, c) = (t + closedPauseSum ps, true, q.pause_start)
  | [], q, t, b, c, h => by simp [openPauses] at h
  | p :: ps, q, t, b, c, h => by
    cases hp : p.pause_end with
    | none =>
      rw [openPauses_cons_open hp ps] at h
      obtain ⟨rfl, htail⟩ := List.cons_eq_cons.mp h
      rw [List.foldl_cons]
      show List.foldl pauseScanStep (pauseScanStep (t, b, c) p) ps = _
      rw [show pauseScanStep (t, b, c) p = (t, true, p.pause_start) by
        simp [pauseScanStep, hp]]
      rw [pauseScan_no_open ps t true p.pause_start htail,
        closedPauseSum_cons, hp]
      rw [zero_add]
    | some e =>
      rw [openPauses_cons_closed hp ps] at h
      have ih := pauseScan_one_open ps q (t + (e - p.pause_start)) b c h
      rw [List.foldl_cons]
      show List.foldl pauseScanStep (pauseScanStep (t, b, c) p) ps = _
      rw [show pauseScanStep (t, b, c) p = (t + (e - p.pause_start), b, c) by
        simp [pauseScanStep, hp]]
      rw [ih, closedPauseSum_cons, hp]
      rw [show t + (e - p.pause_start) + closedPauseSum ps
          = t + ((e - p.pause_start) + closedPauseSum ps) by ring]

/-- Claim C1: for every session, pause list with at most one open pause and
instant now, calculateElapsedTime returns the whole-second floor of
(now - start_time) minus the closed-pause total minus (now - pause_start)
for the open pause if one exists, clamped to zero; with an empty pause
list this degenerates to the floored (now - start_time). -/
theorem calculateElapsedTime_spec (start_time now : Int) (pauses : List WorkPause)
    (h : (openPauses pauses).length ≤ 1) :
    calculateElapsedTime start_time pauses now = netElapsedSpec start_time pauses now ∧
    calculateElapsedTime start_time [] now = max 0 ((now - start_time).fdiv 1000) := by
  constructor
  · rcases hop : openPauses pauses with _ | ⟨q, rest⟩
    · rw [calculateElapsedTime, netElapsedSpec,
        pauseScan_no_open pauses 0 false 0 hop, hop]
      norm_num
    · rcases rest with _ | ⟨q2, qs⟩
      · rw [calculateElapsedTime, netElapsedSpec,
          pauseScan_one_open pauses q 0 false 0 hop, hop]
        simp only [if_true]
        congr 1
        congr 1
        ring
      · rw [hop] at h
        simp at h
  · rw [calculateElapsedTime]
    norm_num

/-- Claim C1 witness: the theorem applied to a concrete session that has
one closed pause and one open pause. -/
theorem calculateElapsedTime_spec_witness :
    calculateElapsedTime 0 pausesW 10000 = netElapsedSpec 0 pausesW 10000 ∧
    calculateElapsedTime 0 [] 10000 = max 0 (((10000 : Int) - 0).fdiv 1000) :=
  calculateElapsedTime_spec 0 10000 pausesW (by decide)

/-- Claim C5: whenever a session is already tracked locally, startSession
rejects with the local validation error before issuing any remote call
(getUser included), and neither the local state nor the store changes. -/
theorem startSession_alreadyActive (st : LocalState) (db : DB) (user : Option Nat)
    (now : Int) (insertOk : Bool) (newId : Nat) (s : WorkSession)
    (h : st.activeSession = some s) :
    startSession st db user now insertOk newId =
      ⟨st, db, [], Except.error "Ya hay una sesión activa"⟩ := by
  simp [startSession, h]

/-- Claim C5 witness: the rejection at a concrete tracked session. -/
theorem startSession_alreadyActive_witness :
    startSession stActive dbC (some 7) 1000 true 2 =
      ⟨stActive, dbC, [], Except.error "Ya hay una sesión activa"⟩ :=
  startSession_alreadyActive stActive dbC (some 7) 1000 true 2 sessW rfl

/-- Claim C7: in every state where no session is paused (nothing tracked,
tracked but not paused, or an operation in flight), resumeSession returns
without issuing any remote call and leaves the whole local state and the
store unchanged. -/
theorem resumeSession_noop (st : LocalState) (db : DB) (user : Option Nat) (now : Int)
    (closeOk updateOk loadOk : Bool)
    (h : st.activeSession = none ∨ st.isPaused = false ∨ st.loading = true) :
    resumeSession st db user now closeOk updateOk loadOk = ⟨st, db, [], Except.ok ()⟩ := by
  rcases h with h | h | h
  · simp [resumeSession, h]
  · cases hs : st.activeSession with
    | none => simp [resumeSession, hs]
    | some s => simp [resumeSession, hs, h]
  · cases hs : st.activeSession with
    | none => simp [resumeSession, hs]
    | some s => simp [resumeSession, hs, h]

/-- Claim C7 witness: resume with nothing tracked is the identity. -/
theorem resumeSession_noop_witness :
    resumeSession initialState dbC (some 7) 1000 true true true =
      ⟨initialState, dbC, [], Except.ok ()⟩ :=
  resumeSession_noop initialState dbC (some 7) 1000 true true true (Or.inl rfl)

theorem endPauseTotal_go (ps : List WorkPause) (now : Int) :
    ∀ a : Int,
      ps.foldl (fun acc p => acc + (p.pause_end.getD now - p.pause_start)) a
        = a + endPauseTotalSpec ps now := by
  induction ps with
  | nil => intro a; simp [endPauseTotalSpec]
  | cons p ps ih =>
    intro a
    rw [List.foldl_cons, ih (a + (p.pause_end.getD now - p.pause_start))]
    simp [endPauseTotalSpec]
    ring

theorem endPauseTotal_eq_spec (ps : List WorkPause) (now : Int) :
    endPauseTotal ps now = endPauseTotalSpec ps now := by
  rw [endPauseTotal, endPauseTotal_go ps now 0, zero_add]

/-- Claim C2: for every tracked session, endSession computes the clamped,
floored net seconds (now - start_time) minus the sum over every fetched
pause of (pause_end, or now when unset) minus pause_start, formats the
result, and writes end_time = now, status = completed and the formatted
total_duration in one single update, then clears the local state. -/
theorem endSession_spec (st : LocalState) (db : DB) (s : WorkSession) (now : Int)
    (h : st.activeSession = some s) :
    endSession st db now true true =
      ⟨{ st with activeSession := none, elapsedTime := 0, isPaused := false },
       completeSession db s.row.id now
         (formatTime (max 0 ((now - s.row.start_time
            - endPauseTotalSpec (sessionPauses db s.row.id) now).fdiv 1000)).toNat),
       [RemoteCall.fetchPauses s.row.id,
        RemoteCall.updateComplete s.row.id now
          (formatTime (max 0 ((now - s.row.start_time
             - endPauseTotalSpec (sessionPauses db s.row.id) now).fdiv 1000)).toNat)],
       Except.ok ()⟩ := by
  simp [endSession, h, endPauseTotal_eq_spec]

/-- Claim C2 witness: the 09:00-17:00 scenario with pauses 12:00-12:30 and
15:00-15:15 produces the single completing update with total_duration
07:15:00. -/
theorem endSession_spec_witness :
    (endSession stActive dbScen 28800000 true true).calls =
      [RemoteCall.fetchPauses 1, RemoteCall.updateComplete 1 28800000 "07:15:00"] := by
  rw [endSession_spec stActive dbScen sessW 28800000 rfl]
  decide

/-- Claim C9: when the pause-list query inside endSession fails (its data
is null), endSession neither raises nor aborts: it behaves exactly as if
the store held no pauses, still issues the single completing update with
status = completed, and the recorded duration subtracts no pause time. -/
theorem endSession_fetchFail_spec (st : LocalState) (db : DB) (s : WorkSession) (now : Int)
    (h : st.activeSession = some s) :
    (endSession st db now false true).state
      = (endSession st ⟨db.sessions, []⟩ now true true).state ∧
    (endSession st db now false true).calls
      = (endSession st ⟨db.sessions, []⟩ now true true).calls ∧
    (endSession st db now false true).outcome = Except.ok () ∧
    (endSession st db now false true).calls =
      [RemoteCall.fetchPauses s.row.id,
       RemoteCall.updateComplete s.row.id now
         (formatTime (max 0 ((now - s.row.start_time).fdiv 1000)).toNat)] ∧
    (endSession st db now false true).db =
      completeSession db s.row.id now
        (formatTime (max 0 ((now - s.row.start_time).fdiv 1000)).toNat) := by
  refine ⟨?_, ?_, ?_, ?_, ?_⟩ <;>
    simp [endSession, h, sessionPauses, endPauseTotal]

/-- Claim C9 witness: with the two-pause store of the end scenario but a
failed pause fetch, the session completes with the full, uninflated span
08:00:00 instead of 07:15:00. -/
theorem endSession_fetchFail_witness :
    (endSession stActive dbScen 28800000 false true).outcome = Except.ok () ∧
    (endSession stActive dbScen 28800000 false true).calls =
      [RemoteCall.fetchPauses 1, RemoteCall.updateComplete 1 28800000 "08:00:00"] := by
  have h := endSession_fetchFail_spec stActive dbScen sessW 28800000 rfl
  refine ⟨h.2.2.1, ?_⟩
  rw [h.2.2.2.1]
  decide

/-- Claim C3 counterexample: an open session only five minutes old, far
below the 24-hour staleness window of the server-side check, is still
published as the pending abandonedSession and is not loaded into the
controller as the active session. -/
theorem checkAbandonedSessions_counterexample :
    (300000 : Int) < 86400000 ∧
    (checkAbandonedSessions initialState dbC (some 7) 300000 true true).abandonedSession
      = some (1, "5 minutos") ∧
    (checkAbandonedSessions initialState dbC (some 7) 300000 true true).activeSession
      = none := by
  decide

/-- Claim C3 (amended): the client-side detector publishes every open
session it finds as the pending abandonedSession, regardless of its age;
the normal load into the controller runs only when no open session
exists.  (The 24-hour staleness window exists only in the server-side
check, which this code path does not invoke.) -/
theorem checkAbandonedSessions_amended (st : LocalState) (db : DB) (uid : Nat)
    (now : Int) (loadOk : Bool) :
    (∀ r, findOpenSession db uid = some r →
      checkAbandonedSessions st db (some uid) now true loadOk =
        { st with abandonedSession := some (r.id, timeMessage (now - r.start_time)) }) ∧
    (findOpenSession db uid = none →
      checkAbandonedSessions st db (some uid) now true loadOk =
        loadActiveSession st db (some uid) now loadOk) := by
  constructor
  · intro r hr
    simp [checkAbandonedSessions, hr]
  · intro hr
    simp [checkAbandonedSessions, hr]

/-- Claim C3 witness: the 25-hour-old session of the spec scenario is
published with the message 25 horas. -/
theorem checkAbandonedSessions_amended_witness :
    checkAbandonedSessions initialState dbC (some 7) 90000000 true true =
      { initialState with abandonedSession := some (1, "25 horas") } := by
  rw [(checkAbandonedSessions_amended initialState dbC 7 90000000 true).1 rowC rfl]
  decide

/-- Claim C8: for every detected abandoned session, the published message
is the floored whole number of hours followed by " horas" when at least
one hour has elapsed since start_time, and the floored whole number of
minutes followed by " minutos" otherwise. -/
theorem abandonedMessage_spec (st : LocalState) (db : DB) (uid : Nat) (now : Int)
    (r : SessionRow) (loadOk : Bool) (hfind : findOpenSession db uid = some r) :
    (checkAbandonedSessions st db (some uid) now true loadOk).abandonedSession =
      some (r.id, timeMessage (now - r.start_time)) ∧
    (3600000 ≤ now - r.start_time →
      ∃ h, timeMessage (now - r.start_time) = toString h ++ " horas" ∧
        3600000 * h ≤ now - r.start_time ∧ now - r.start_time < 3600000 * (h + 1)) ∧
    (now - r.start_time < 3600000 →
      ∃ m, timeMessage (now - r.start_time) = toString m ++ " minutos" ∧
        60000 * m ≤ now - r.start_time ∧ now - r.start_time < 60000 * (m + 1)) := by
  refine ⟨by simp [checkAbandonedSessions, hfind], ?_, ?_⟩
  · intro hge
    refine ⟨(now - r.start_time).fdiv 3600000, ?_, ?_, ?_⟩
    · simp [timeMessage, hge]
    · have h1 := Int.fmod_add_fdiv (now - r.start_time) 3600000
      have h2 := Int.fmod_nonneg' (now - r.start_time) (show (0 : Int) < 3600000 by norm_num)
      omega
    · have h1 := Int.fmod_add_fdiv (now - r.start_time) 3600000
      have h3 := Int.fmod_lt_of_pos (now - r.start_time) (show (0 : Int) < 3600000 by norm_num)
      omega
  · intro hlt
    refine ⟨(now - r.start_time).fdiv 60000, ?_, ?_, ?_⟩
    · simp [timeMessage, not_le.mpr hlt]
    · have h1 := Int.fmod_add_fdiv (now - r.start_time) 60000
      have h2 := Int.fmod_nonneg' (now - r.start_time) (show (0 : Int) < 60000 by norm_num)
      omega
    · have h1 := Int.fmod_add_fdiv (now - r.start_time) 60000
      have h3 := Int.fmod_lt_of_pos (now - r.start_time) (show (0 : Int) < 60000 by norm_num)
      omega

/-- Claim C8 witness: at 25 elapsed hours the published message is the
whole-hours form, 25 horas. -/
theorem abandonedMessage_spec_witness :
    (checkAbandonedSessions initialState dbC (some 7) 90000000 true true).abandonedSession =
      some (rowC.id, timeMessage (90000000 - rowC.start_time)) ∧
    timeMessage (90000000 - rowC.start_time) = "25 horas" := by
  have h := abandonedMessage_spec initialState dbC 7 90000000 rowC true rfl
  refine ⟨h.1, ?_⟩
  obtain ⟨k, hk, hk1, hk2⟩ := h.2.1 (by decide)
  have hkval : k = 25 := by
    simp only [rowC] at hk1 hk2
    omega
  rw [hk, hkval]
  rfl

/-- Claim C4 counterexample: with the pause-insert write failing,
pauseSession attempts the write, rolls the optimistic flag back, but the
promise resolves ok — the result of the operation does not carry the
error. -/
theorem pauseError_counterexample :
    (pauseSession stActive dbC (some 7) 1000 false true true).calls
      = [RemoteCall.insertPause 1 1000] ∧
    (pauseSession stActive dbC (some 7) 1000 false true true).outcome = Except.ok () ∧
    (pauseSession stActive dbC (some 7) 1000 false true true).state.isPaused = false := by
  decide

/-- Claim C4 (amended): on every failed remote write during pauseSession
or resumeSession the optimistic isPaused flag is rolled back to its
pre-operation value, but the error is caught and logged rather than
re-thrown: the operation resolves ok and its result does not carry the
error. -/
theorem pauseResume_rollback_swallow (stA stP : LocalState) (db : DB) (user : Option Nat)
    (now : Int) (sA sP : WorkSession) (b : Bool)
    (hA : stA.activeSession = some sA) (hA2 : stA.isPaused = false) (hA3 : stA.loading = false)
    (hP : stP.activeSession = some sP) (hP2 : stP.isPaused = true) (hP3 : stP.loading = false) :
    ((pauseSession stA db user now false b b).state.isPaused = false ∧
     (pauseSession stA db user now false b b).outcome = Except.ok ()) ∧
    ((pauseSession stA db user now true false b).state.isPaused = false ∧
     (pauseSession stA db user now true false b).outcome = Except.ok ()) ∧
    ((resumeSession stP db user now false b b).state.isPaused = true ∧
     (resumeSession stP db user now false b b).outcome = Except.ok ()) ∧
    ((resumeSession stP db user now true false b).state.isPaused = true ∧
     (resumeSession stP db user now true false b).outcome = Except.ok ()) := by
  refine ⟨⟨?_, ?_⟩, ⟨?_, ?_⟩, ⟨?_, ?_⟩, ⟨?_, ?_⟩⟩ <;>
    simp [pauseSession, resumeSession, hA, hA2, hA3, hP, hP2, hP3]

/-- Claim C4 witness: the amended rollback-and-swallow behavior at a
concrete active state and a concrete paused state. -/
theorem pauseResume_rollback_swallow_witness :
    ((pauseSession stActive dbC (some 7) 1000 false true true).state.isPaused = false ∧
     (pauseSession stActive dbC (some 7) 1000 false true true).outcome = Except.ok ()) ∧
    ((pauseSession stActive dbC (some 7) 1000 true false true).state.isPaused = false ∧
     (pauseSession stActive dbC (some 7) 1000 true false true).outcome = Except.ok ()) ∧
    ((resumeSession stPaused dbC (some 7) 1000 false true true).state.isPaused = true ∧
     (resumeSession stPaused dbC (some 7) 1000 false true true).outcome = Except.ok ()) ∧
    ((resumeSession stPaused dbC (some 7) 1000 true false true).state.isPaused = true ∧
     (resumeSession stPaused dbC (some 7) 1000 true false true).outcome = Except.ok ()) :=
  pauseResume_rollback_swallow stActive stPaused dbC (some 7) 1000 sessW sessW true
    rfl rfl rfl rfl rfl rfl

theorem pauseSession_noop_of_paused (st : LocalState) (db : DB) (user : Option Nat)
    (now : Int) (b1 b2 b3 : Bool) (s : WorkSession)
    (h1 : st.activeSession = some s) (h2 : st.isPaused = true) :
    pauseSession st db user now b1 b2 b3 = ⟨st, db, [], Except.ok ()⟩ := by
  simp [pauseSession, h1, h2]

/-- Claim C6: starting from an active, in-sync state with no open pause in
the store, a successful pauseSession leaves exactly one open WorkPause
and a paused local flag, and a second pauseSession without an intervening
resume is a no-op — it issues no remote call at all, so the session still
has exactly one open WorkPause. -/
theorem pauseSession_idempotent (st : LocalState) (db : DB) (uid : Nat) (now now2 : Int)
    (s : WorkSession) (b1 b2 b3 : Bool)
    (h1 : st.activeSession = some s) (h2 : st.isPaused = false) (h3 : st.loading = false)
    (h4 : db.sessions = [s.row]) (h5 : s.row.user_id = uid)
    (h7 : countOpenPauses db s.row.id = 0) :
    countOpenPauses (pauseSession st db (some uid) now true true true).db s.row.id = 1 ∧
    (pauseSession st db (some uid) now true true true).state.isPaused = true ∧
    pauseSession (pauseSession st db (some uid) now true true true).state
        (pauseSession st db (some uid) now true true true).db (some uid) now2 b1 b2 b3 =
      ⟨(pauseSession st db (some uid) now true true true).state,
       (pauseSession st db (some uid) now true true true).db, [], Except.ok ()⟩ ∧
    countOpenPauses (pauseSession (pauseSession st db (some uid) now true true true).state
        (pauseSession st db (some uid) now true true true).db (some uid) now2 b1 b2 b3).db
      s.row.id = 1 := by
  obtain ⟨sess, paus⟩ := db
  have h4a : sess = [s.row] := h4
  subst h4a
  subst h5
  have h7a : paus.filter (fun p => p.session_id == s.row.id && p.pause_end.isNone) = [] :=
    List.length_eq_zero.mp h7
  have hfirst :
      pauseSession st ⟨[s.row], paus⟩ (some s.row.user_id) now true true true =
        ⟨{ st with
             activeSession := some ⟨{ s.row with status := SessionStatus.paused },
               paus.filter (fun p => p.session_id == s.row.id)
                 ++ [(⟨s.row.id, now, none⟩ : WorkPause)]⟩,
             isPaused := true,
             elapsedTime := calculateElapsedTime s.row.start_time
               (paus.filter (fun p => p.session_id == s.row.id)
                 ++ [(⟨s.row.id, now, none⟩ : WorkPause)]) now,
             loading := false },
         ⟨[{ s.row with status := SessionStatus.paused }],
          paus ++ [(⟨s.row.id, now, none⟩ : WorkPause)]⟩,
         [RemoteCall.insertPause s.row.id now,
          RemoteCall.updateStatus s.row.id SessionStatus.paused, RemoteCall.loadSession],
         Except.ok ()⟩ := by
    simp [pauseSession, h1, h2, h3, insertPauseRow, setSessionStatus, loadActiveSession,
      findOpenSession, isOpenStatus, sessionPauses, List.find?]
  refine ⟨?_, ?_, ?_, ?_⟩
  · rw [hfirst]
    simp [countOpenPauses, List.filter_append, h7a]
  · rw [hfirst]
  · rw [hfirst]
    exact pauseSession_noop_of_paused _ _ _ _ b1 b2 b3 _ rfl rfl
  · rw [hfirst, pauseSession_noop_of_paused _ _ _ _ b1 b2 b3 _ rfl rfl]
    simp [countOpenPauses, List.filter_append, h7a]

/-- Claim C6 witness: the double-pause scenario at a concrete active state
over the single-session store. -/
theorem pauseSession_idempotent_witness :
    countOpenPauses (pauseSession stActive dbC (some 7) 1000 true true true).db 1 = 1 ∧
    (pauseSession stActive dbC (some 7) 1000 true true true).state.isPaused = true ∧
    pauseSession (pauseSession stActive dbC (some 7) 1000 true true true).state
        (pauseSession stActive dbC (some 7) 1000 true true true).db (some 7) 2000 false true false =
      ⟨(pauseSession stActive dbC (some 7) 1000 true true true).state,
       (pauseSession stActive dbC (some 7) 1000 true true true).db, [], Except.ok ()⟩ ∧
    countOpenPauses (pauseSession (pauseSession stActive dbC (some 7) 1000 true true true).state
        (pauseSession stActive dbC (some 7) 1000 true true true).db (some 7) 2000 false true false).db
      1 = 1 :=
  pauseSession_idempotent stActive dbC 7 1000 2000 sessW false true false
    rfl rfl rfl rfl rfl (by decide)

theorem pausaContribution_eq (p : Pausa) :
    pausaContribution p =
      (match p.pause_start.parse, p.pause_end.parse with
       | some a, some b => b - a
       | _, _ => 0) := by
  obtain ⟨u, v⟩ := p
  cases u <;> cases v <;> rfl

theorem pausaFold_go (ps : List Pausa) :
    ∀ a : Int, ps.foldl (fun acc p => acc + pausaContribution p) a
      = a + validClosedPauseSumSpec ps := by
  induction ps with
  | nil => intro a; simp [validClosedPauseSumSpec]
  | cons p ps ih =>
    intro a
    rw [List.foldl_cons, ih (a + pausaContribution p), pausaContribution_eq p]
    rcases hu : p.pause_start.parse with _ | u
    · cases hv : p.pause_end.parse <;>
        simp [validClosedPauseSumSpec, List.filterMap_cons, hu, hv]
    · rcases hv : p.pause_end.parse with _ | v
      · simp [validClosedPauseSumSpec, List.filterMap_cons, hu, hv]
      · simp [validClosedPauseSumSpec, List.filterMap_cons, hu, hv]
        ring

/-- Claim C10: for every start time, end time and pause list, the
history-side calculateDuration subtracts only pauses whose two endpoints
are set and parse to valid timestamps; a pause with pause_end null
contributes zero — its span counts as worked time — unlike
calculateElapsedTime, which charges an open pause up to now. -/
theorem calculateDuration_spec (startTime endTime : TsStr) (pauses : List Pausa)
    (p : Pausa) (sv ev : Int)
    (hs : startTime.parse = some sv) (he : endTime.parse = some ev)
    (hp : p.pause_end = TsStr.null) :
    calculateDuration startTime endTime pauses
      = max 0 ((ev - sv) - validClosedPauseSumSpec pauses) ∧
    calculateDuration startTime endTime (p :: pauses)
      = calculateDuration startTime endTime pauses ∧
    calculateElapsedTime 0 [⟨1, 4000, none⟩] 10000 = 4 ∧
    calculateDuration (TsStr.valid 0) (TsStr.valid 10000) [⟨TsStr.valid 4000, TsStr.null⟩]
      = 10000 := by
  refine ⟨?_, ?_, by decide, by decide⟩
  · simp [calculateDuration, hs, he, pausaFold_go]
  · have hcontrib : pausaContribution p = 0 := by
      obtain ⟨u, v⟩ := p
      have hv : v = TsStr.null := hp
      subst hv
      cases u <;> rfl
    simp [calculateDuration, hs, he, List.foldl_cons, hcontrib]

/-- Claim C10 witness: a concrete history row with one fully valid closed
pause, one pause whose end does not parse, and one open pause. -/
theorem calculateDuration_spec_witness :
    calculateDuration (TsStr.valid 0) (TsStr.valid 1000000)
        [⟨TsStr.valid 100, TsStr.valid 200⟩, ⟨TsStr.valid 300, TsStr.invalid⟩]
      = max 0 ((1000000 - 0) - validClosedPauseSumSpec
          [⟨TsStr.valid 100, TsStr.valid 200⟩, ⟨TsStr.valid 300, TsStr.invalid⟩]) ∧
    calculateDuration (TsStr.valid 0) (TsStr.valid 1000000)
        (⟨TsStr.valid 500, TsStr.null⟩ ::
          [⟨TsStr.valid 100, TsStr.valid 200⟩, ⟨TsStr.valid 300, TsStr.invalid⟩])
      = calculateDuration (TsStr.valid 0) (TsStr.valid 1000000)
          [⟨TsStr.valid 100, TsStr.valid 200⟩, ⟨TsStr.valid 300, TsStr.invalid⟩] ∧
    calculateElapsedTime 0 [⟨1, 4000, none⟩] 10000 = 4 ∧
    calculateDuration (TsStr.valid 0) (TsStr.valid 10000) [⟨TsStr.valid 4000, TsStr.null⟩]
      = 10000 :=
  calculateDuration_spec (TsStr.valid 0) (TsStr.valid 1000000)
    [⟨TsStr.valid 100, TsStr.valid 200⟩, ⟨TsStr.valid 300, TsStr.invalid⟩]
    ⟨TsStr.valid 500, TsStr.null⟩ 0 1000000 rfl rfl rfl

end ControlHorario
